import Mathlib

/-!
Shallow embedding of `installer/patcher.py` (dify-patcher).

The script shells out to an external version-control tool (`git`).  Each
patch file is modelled by a record holding the observable behaviour of the
tool on that patch: the exit status of the reverse check, of the forward
check, of the real forward application, their captured (stripped) stderr
texts, and whether the corresponding Python call raises an exception.
The control flow of `is_patch_applied`, `apply_patch`, `apply_patches`,
`create_backup` and `main` is translated statement by statement.
-/

namespace DifyPatcher

/-- Python's substring test `pat in l`, on lists of characters. -/
def hasSubstr (pat : List Char) : List Char → Bool
  | [] => pat.isEmpty
  | c :: rest => pat.isPrefixOf (c :: rest) || hasSubstr pat rest

/-- Python's `pat in s` for strings. -/
def strContains (s pat : String) : Bool := hasSubstr pat.data s.data

/-- Python's `str.strip()` on a character list: drop leading and trailing
whitespace. -/
def stripChars (l : List Char) : List Char :=
  ((l.dropWhile Char.isWhitespace).reverse.dropWhile Char.isWhitespace).reverse

/-- Python's `s.strip()`. -/
def strStrip (s : String) : String := ⟨stripChars s.data⟩

/-- Observable behaviour of the external tool on one patch file.
`reverseRaises` / `forwardRaises` model an exception raised by the
corresponding `subprocess.run` inside `is_patch_applied` (caught by its
`except` clause, with text `excMsg`); `reverseOk` / `forwardOk` model
`returncode == 0` of `git apply --reverse --check` / `git apply --check`;
`applyOk` and `applyStderr` model the real `git apply` (its non-zero exit
raises `CalledProcessError`, caught in `apply_patch`).  The stderr fields
hold the already-stripped diagnostic text. -/
structure PatchBehavior where
  name : String
  reverseRaises : Bool
  reverseOk : Bool
  reverseStderr : String
  forwardRaises : Bool
  forwardOk : Bool
  forwardStderr : String
  excMsg : String
  applyOk : Bool
  applyStderr : String
deriving DecidableEq

/-- `is_patch_applied(target_dir, patch_file)`: returns `(is_applied, message)`.
Reverse dry-run first; on exit 0, `(True, "Already applied")`.  Otherwise a
forward dry-run: on exit 0 `(False, "Ready to apply")`, else
`(False, "Conflicts detected: <stderr>")`.  Any exception yields
`(False, "Error checking patch: <str(e)>")`. -/
def is_patch_applied (p : PatchBehavior) : Bool × String :=
  if p.reverseRaises then
    (false, "Error checking patch: " ++ p.excMsg)
  else if p.reverseOk then
    (true, "Already applied")
  else if p.forwardRaises then
    (false, "Error checking patch: " ++ p.excMsg)
  else if p.forwardOk then
    (false, "Ready to apply")
  else
    (false, "Conflicts detected: " ++ p.forwardStderr)

/-- Result of `apply_patch`: the returned `(success, message)` pair, plus
`ranApply`, recording whether the real (mutating) `git apply` was invoked. -/
structure ApplyResult where
  success : Bool
  message : String
  ranApply : Bool
deriving DecidableEq

/-- `apply_patch(target_dir, patch_file, dry_run)`. -/
def apply_patch (p : PatchBehavior) (dry_run : Bool) : ApplyResult :=
  let checked := is_patch_applied p
  if checked.1 then
    ⟨true, p.name ++ ": " ++ checked.2, false⟩
  else if strContains checked.2 "Conflicts" then
    ⟨false, p.name ++ ": " ++ checked.2, false⟩
  else if dry_run then
    ⟨true, p.name ++ ": Would be applied (dry-run)", false⟩
  else if p.applyOk then
    ⟨true, p.name ++ ": Applied successfully", true⟩
  else
    ⟨false, p.name ++ ": Failed to apply\n" ++ p.applyStderr, true⟩

/-- The three counters of `apply_patches`. -/
structure BatchCounts where
  success_count : Nat
  skip_count : Nat
  fail_count : Nat
deriving DecidableEq

/-- The `for patch_file in patch_files:` loop of `apply_patches`.  Returns
the per-patch results produced, the final counters, and whether the loop
returned early (`return False` on an unforced failure). -/
def runPatches (dry_run force : Bool) :
    List PatchBehavior → BatchCounts → List ApplyResult × BatchCounts × Bool
  | [], counts => ([], counts, false)
  | p :: rest, counts =>
    let r := apply_patch p dry_run
    if r.success then
      let counts' :=
        if strContains r.message "Already applied" then
          ⟨counts.success_count, counts.skip_count + 1, counts.fail_count⟩
        else
          ⟨counts.success_count + 1, counts.skip_count, counts.fail_count⟩
      let next := runPatches dry_run force rest counts'
      (r :: next.1, next.2)
    else
      let counts' : BatchCounts :=
        ⟨counts.success_count, counts.skip_count, counts.fail_count + 1⟩
      if force then
        let next := runPatches dry_run force rest counts'
        (r :: next.1, next.2)
      else
        ([r], counts', true)

/-- Result of one `apply_patches` call: the returned boolean, the ordered
per-patch results, the final counters, whether the empty-directory warning
was printed, and whether the batch halted early. -/
structure BatchRun where
  result : Bool
  outcomes : List ApplyResult
  counts : BatchCounts
  warnedEmpty : Bool
  halted : Bool
deriving DecidableEq

/-- `apply_patches(target_dir, patches_dir, dry_run, force)`.
A missing patches directory returns `False` at once; an existing directory
with no `*.patch` files prints a warning and returns `True`; otherwise the
loop runs and, if it completes, the result is `fail_count == 0`. -/
def apply_patches_run (patchesDirExists : Bool) (patch_files : List PatchBehavior)
    (dry_run force : Bool) : BatchRun :=
  if !patchesDirExists then
    ⟨false, [], ⟨0, 0, 0⟩, false, false⟩
  else if patch_files.isEmpty then
    ⟨true, [], ⟨0, 0, 0⟩, true, false⟩
  else
    let r := runPatches dry_run force patch_files ⟨0, 0, 0⟩
    ⟨if r.2.2 then false else r.2.1.fail_count == 0, r.1, r.2.1, false, r.2.2⟩

/-- Observable behaviour of the tree for `create_backup`: whether
`git status --porcelain` raises, its stdout, and whether `git stash push`
raises (is non-zero, `check=True`). -/
structure TreeState where
  statusRaises : Bool
  porcelain : String
  stashRaises : Bool
deriving DecidableEq

/-- Result of `create_backup`: the returned boolean, whether a stash was
actually created, and whether the warning path was taken. -/
structure BackupResult where
  result : Bool
  stashRan : Bool
  warned : Bool
deriving DecidableEq

/-- `create_backup(target_dir)`: if `git status --porcelain` output (after
strip) is non-empty, run `git stash push -m ...` and return `True`; on a
clean tree return `True`; any exception prints a warning and returns
`True` ("Continue anyway"). -/
def create_backup (t : TreeState) : BackupResult :=
  if t.statusRaises then
    ⟨true, false, true⟩
  else if strStrip t.porcelain = "" then
    ⟨true, false, false⟩
  else if t.stashRaises then
    ⟨true, false, true⟩
  else
    ⟨true, true, false⟩

/-- Result of `main()`: its return value (the process exit code), the
backup call's result when `create_backup` was invoked (`none` when it was
skipped), and the batch run when `apply_patches` was reached. -/
structure MainRun where
  exitCode : Nat
  backup : Option BackupResult
  batch : Option BatchRun
deriving DecidableEq

/-- `main()`: validate the target directory (existence, `api` and `web`
subdirectories), check git availability, optionally `create_backup` (only
when neither `--no-backup` nor `--dry-run`), then run `apply_patches` and
return `0` on success, `1` otherwise. -/
def main_run (targetExists apiExists webExists gitAvailable : Bool)
    (tree : TreeState) (patchesDirExists : Bool) (patch_files : List PatchBehavior)
    (dry_run force no_backup : Bool) : MainRun :=
  if !targetExists then
    ⟨1, none, none⟩
  else if !(apiExists && webExists) then
    ⟨1, none, none⟩
  else if !gitAvailable then
    ⟨1, none, none⟩
  else
    let backup := if !no_backup && !dry_run then some (create_backup tree) else none
    let b := apply_patches_run patchesDirExists patch_files dry_run force
    ⟨if b.result then 0 else 1, backup, some b⟩

/-- Number of patches in the list whose `apply_patch` call reports failure. -/
def countFailures (dry_run : Bool) (ps : List PatchBehavior) : Nat :=
  (ps.filter (fun p => !(apply_patch p dry_run).success)).length

/-- A patch that the tool reports as cleanly applicable and applies. -/
def okPatchA : PatchBehavior :=
  ⟨"0001-a.patch", false, false, "", false, true, "", "", true, ""⟩

/-- A patch whose forward dry-run reports conflicts. -/
def conflictPatchB : PatchBehavior :=
  ⟨"0002-b.patch", false, false, "error: rev", false, false, "error: hunk failed", "", true, ""⟩

/-- A patch that the tool reports as cleanly applicable and applies. -/
def okPatchC : PatchBehavior :=
  ⟨"0003-c.patch", false, false, "", false, true, "", "", true, ""⟩

/-- A patch whose reverse dry-run reports success (already applied). -/
def appliedPatchD : PatchBehavior :=
  ⟨"0004-d.patch", false, true, "", false, false, "", "", true, ""⟩

/-- A patch that probes as applicable but whose real application fails. -/
def failPatchE : PatchBehavior :=
  ⟨"0005-e.patch", false, false, "", false, true, "", "", false, "error: patch failed: api/app.py:10"⟩

/-- A patch whose probe raises an exception whose text contains `Conflicts`. -/
def excConflictPatch : PatchBehavior :=
  ⟨"0006-f.patch", true, false, "", false, false, "", "Conflicts", true, ""⟩

/-- A patch whose probe raises an exception with an ordinary error text. -/
def excBoomPatch : PatchBehavior :=
  ⟨"0007-g.patch", true, false, "", false, false, "", "boom", true, ""⟩

/-- A successfully applied patch whose filename contains `Already applied`. -/
def trickyNamePatch : PatchBehavior :=
  ⟨"Already applied-custom.patch", false, false, "", false, true, "", "", true, ""⟩

theorem pfxOf_append (p l m : List Char) (h : p.isPrefixOf l = true) :
    p.isPrefixOf (l ++ m) = true := by
  induction p generalizing l with
  | nil => simp [List.isPrefixOf]
  | cons a p ih =>
    cases l with
    | nil => simp [List.isPrefixOf] at h
    | cons b l =>
      simp only [List.cons_append, List.isPrefixOf, Bool.and_eq_true] at h ⊢
      exact ⟨h.1, ih l h.2⟩

theorem pfxOf_refl (l : List Char) : l.isPrefixOf l = true := by
  induction l with
  | nil => rfl
  | cons a l ih =>
    simp only [List.isPrefixOf, Bool.and_eq_true, beq_iff_eq]
    exact ⟨trivial, ih⟩

theorem hasSubstr_nil_pat (l : List Char) : hasSubstr [] l = true := by
  induction l with
  | nil => rfl
  | cons c l ih => simp [hasSubstr, List.isPrefixOf]

theorem hasSubstr_append_right (pat l m : List Char) (h : hasSubstr pat m = true) :
    hasSubstr pat (l ++ m) = true := by
  induction l with
  | nil => exact h
  | cons c l ih =>
    simp only [List.cons_append, hasSubstr, Bool.or_eq_true]
    exact Or.inr ih

theorem hasSubstr_append_left (pat l m : List Char) (h : hasSubstr pat l = true) :
    hasSubstr pat (l ++ m) = true := by
  induction l with
  | nil =>
    simp only [hasSubstr, List.isEmpty_iff] at h
    subst h
    exact hasSubstr_nil_pat m
  | cons c l ih =>
    simp only [hasSubstr, Bool.or_eq_true] at h
    rcases h with h | h
    · simp only [List.cons_append, hasSubstr, Bool.or_eq_true]
      exact Or.inl (pfxOf_append _ _ _ h)
    · simp only [List.cons_append, hasSubstr, Bool.or_eq_true]
      exact Or.inr (ih h)

theorem hasSubstr_self (l : List Char) : hasSubstr l l = true := by
  cases l with
  | nil => rfl
  | cons c l =>
    simp only [hasSubstr, Bool.or_eq_true]
    exact Or.inl (pfxOf_refl _)

theorem strContains_append_right (a b pat : String) (h : strContains b pat = true) :
    strContains (a ++ b) pat = true := by
  unfold strContains at h ⊢
  rw [String.data_append]
  exact hasSubstr_append_right _ _ _ h

theorem strContains_append_left (a b pat : String) (h : strContains a pat = true) :
    strContains (a ++ b) pat = true := by
  unfold strContains at h ⊢
  rw [String.data_append]
  exact hasSubstr_append_left _ _ _ h

theorem strContains_self (s : String) : strContains s s = true := hasSubstr_self _

theorem countFailures_cons (dr : Bool) (p : PatchBehavior) (rest : List PatchBehavior) :
    countFailures dr (p :: rest)
      = (if (apply_patch p dr).success then 0 else 1) + countFailures dr rest := by
  by_cases h : (apply_patch p dr).success
  · simp [countFailures, List.filter, h]
  · simp [countFailures, List.filter, h]
    omega

theorem runPatches_force_outcomes (dr : Bool) (ps : List PatchBehavior) :
    ∀ c, (runPatches dr true ps c).1 = ps.map (fun p => apply_patch p dr) := by
  induction ps with
  | nil => intro c; rfl
  | cons p rest ih =>
    intro c
    by_cases h : (apply_patch p dr).success <;> simp [runPatches, h, ih]

theorem runPatches_force_noHalt (dr : Bool) (ps : List PatchBehavior) :
    ∀ c, (runPatches dr true ps c).2.2 = false := by
  induction ps with
  | nil => intro c; rfl
  | cons p rest ih =>
    intro c
    by_cases h : (apply_patch p dr).success <;> simp [runPatches, h, ih]

theorem runPatches_force_failcount (dr : Bool) (ps : List PatchBehavior) :
    ∀ c, (runPatches dr true ps c).2.1.fail_count = c.fail_count + countFailures dr ps := by
  induction ps with
  | nil => intro c; simp [runPatches, countFailures]
  | cons p rest ih =>
    intro c
    rw [countFailures_cons]
    by_cases h : (apply_patch p dr).success
    · by_cases h2 : strContains (apply_patch p dr).message "Already applied" <;>
        simp [runPatches, h, h2, ih]
    · simp [runPatches, h, ih]
      omega

theorem runPatches_halt_eq (dr : Bool) (p : PatchBehavior)
    (hp : (apply_patch p dr).success = false) :
    ∀ (pre : List PatchBehavior) (c : BatchCounts) (tail : List PatchBehavior),
      (pre.all fun q => (apply_patch q dr).success) = true →
      runPatches dr false (pre ++ p :: tail) c = runPatches dr false (pre ++ [p]) c := by
  intro pre
  induction pre with
  | nil =>
    intro c tail _
    simp [runPatches, hp]
  | cons q pre ih =>
    intro c tail hpre
    simp only [List.all_cons, Bool.and_eq_true] at hpre
    have H : ∀ c', runPatches dr false (pre ++ p :: tail) c'
        = runPatches dr false (pre ++ [p]) c' := fun c' => ih c' tail hpre.2
    simp [runPatches, hpre.1, H]

theorem runPatches_halt_spec (dr : Bool) (p : PatchBehavior)
    (hp : (apply_patch p dr).success = false) :
    ∀ (pre : List PatchBehavior) (c : BatchCounts),
      (pre.all fun q => (apply_patch q dr).success) = true →
      (runPatches dr false (pre ++ [p]) c).1
          = pre.map (fun q => apply_patch q dr) ++ [apply_patch p dr]
        ∧ (runPatches dr false (pre ++ [p]) c).2.2 = true := by
  intro pre
  induction pre with
  | nil =>
    intro c _
    simp [runPatches, hp]
  | cons q pre ih =>
    intro c hpre
    simp only [List.all_cons, Bool.and_eq_true] at hpre
    have H1 : ∀ c', (runPatches dr false (pre ++ [p]) c').1
        = pre.map (fun q => apply_patch q dr) ++ [apply_patch p dr] :=
      fun c' => (ih c' hpre.2).1
    have H2 : ∀ c', (runPatches dr false (pre ++ [p]) c').2.2 = true :=
      fun c' => (ih c' hpre.2).2
    simp [runPatches, hpre.1, H1, H2]

theorem apply_patch_dry_pure (q : PatchBehavior) : (apply_patch q true).ranApply = false := by
  by_cases h1 : (is_patch_applied q).1 <;>
    by_cases h2 : strContains (is_patch_applied q).2 "Conflicts" <;>
      simp [apply_patch, h1, h2]

theorem runPatches_dry_pure (f : Bool) (ps : List PatchBehavior) :
    ∀ c, ((runPatches true f ps c).1.all fun r => !r.ranApply) = true := by
  induction ps with
  | nil => intro c; rfl
  | cons p rest ih =>
    intro c
    have ih' : ∀ c', ∀ x ∈ (runPatches true f rest c').1, x.ranApply = false := by
      intro c'
      simpa [List.all_eq_true] using ih c'
    by_cases h : (apply_patch p true).success <;>
      cases f <;>
        simp [runPatches, h, apply_patch_dry_pure, ih'] <;>
          exact fun x hx => ih' _ x hx

theorem append_cons_isEmpty (pre tail : List PatchBehavior) (p : PatchBehavior) :
    (pre ++ p :: tail).isEmpty = false := by
  cases pre <;> rfl

/-- Claim C1: for every batch run without force, when a patch's outcome is a
failure the batch halts immediately: no later patch is ever probed or applied
(the loop's behaviour is independent of the tail after the failing patch),
the run's result is failure, and the process exit code is 1. -/
theorem claim_C1 (dr : Bool) (pre : List PatchBehavior) (p : PatchBehavior)
    (hpre : (pre.all fun q => (apply_patch q dr).success) = true)
    (hp : (apply_patch p dr).success = false) :
    ∀ (tail : List PatchBehavior) (tree : TreeState) (nb : Bool),
      runPatches dr false (pre ++ p :: tail) ⟨0, 0, 0⟩
          = runPatches dr false (pre ++ [p]) ⟨0, 0, 0⟩
        ∧ (apply_patches_run true (pre ++ p :: tail) dr false).outcomes
            = pre.map (fun q => apply_patch q dr) ++ [apply_patch p dr]
        ∧ (apply_patches_run true (pre ++ p :: tail) dr false).halted = true
        ∧ (apply_patches_run true (pre ++ p :: tail) dr false).result = false
        ∧ (main_run true true true true tree true (pre ++ p :: tail) dr false nb).exitCode
            = 1 := by
  intro tail tree nb
  have Heq := runPatches_halt_eq dr p hp pre ⟨0, 0, 0⟩ tail hpre
  have Hspec := runPatches_halt_spec dr p hp pre ⟨0, 0, 0⟩ hpre
  have hne := append_cons_isEmpty pre tail p
  refine ⟨Heq, ?_, ?_, ?_, ?_⟩
  · simp [apply_patches_run, hne, Heq, Hspec.1]
  · simp [apply_patches_run, hne, Heq, Hspec.2]
  · simp [apply_patches_run, hne, Heq, Hspec.2]
  · simp [main_run, apply_patches_run, hne, Heq, Hspec.2]

/-- Claim C1 witness: patches `[A, B(conflicting), C]` without force halt at
`B`; `C` does not influence the run, the outcomes stop at `B`, and the exit
code is 1. -/
theorem claim_C1_witness :
    (([okPatchA].all fun q => (apply_patch q false).success) = true
        ∧ (apply_patch conflictPatchB false).success = false)
    ∧ (runPatches false false ([okPatchA] ++ conflictPatchB :: [okPatchC]) ⟨0, 0, 0⟩
          = runPatches false false ([okPatchA] ++ [conflictPatchB]) ⟨0, 0, 0⟩
        ∧ (apply_patches_run true ([okPatchA] ++ conflictPatchB :: [okPatchC]) false false).outcomes
            = [okPatchA].map (fun q => apply_patch q false) ++ [apply_patch conflictPatchB false]
        ∧ (apply_patches_run true ([okPatchA] ++ conflictPatchB :: [okPatchC]) false false).halted
            = true
        ∧ (apply_patches_run true ([okPatchA] ++ conflictPatchB :: [okPatchC]) false false).result
            = false
        ∧ (main_run true true true true ⟨false, "", false⟩ true
              ([okPatchA] ++ conflictPatchB :: [okPatchC]) false false false).exitCode = 1) :=
  ⟨⟨by decide, by decide⟩,
    claim_C1 false [okPatchA] conflictPatchB (by decide) (by decide)
      [okPatchC] ⟨false, "", false⟩ false⟩

/-- Claim C2: for every batch run with force, every patch is processed (the
outcome list covers the whole sequence and the loop never halts early), the
batch's success result equals `failed_count == 0`, and the exit code is 1
exactly when at least one patch failed, 0 otherwise. -/
theorem claim_C2 (dr : Bool) (ps : List PatchBehavior) (tree : TreeState) (nb : Bool) :
    (apply_patches_run true ps dr true).outcomes = ps.map (fun p => apply_patch p dr)
    ∧ (apply_patches_run true ps dr true).halted = false
    ∧ (apply_patches_run true ps dr true).counts.fail_count = countFailures dr ps
    ∧ (apply_patches_run true ps dr true).result = (countFailures dr ps == 0)
    ∧ (main_run true true true true tree true ps dr true nb).exitCode
        = if countFailures dr ps = 0 then 0 else 1 := by
  cases ps with
  | nil => exact ⟨rfl, rfl, rfl, rfl, rfl⟩
  | cons p rest =>
    have hne : (p :: rest).isEmpty = false := rfl
    have h1 := runPatches_force_outcomes dr (p :: rest) ⟨0, 0, 0⟩
    have h2 := runPatches_force_noHalt dr (p :: rest) ⟨0, 0, 0⟩
    have h3 := runPatches_force_failcount dr (p :: rest) ⟨0, 0, 0⟩
    refine ⟨?_, ?_, ?_, ?_, ?_⟩
    · simp [apply_patches_run, hne, h1]
    · simp [apply_patches_run, hne, h2]
    · simp [apply_patches_run, hne, h3]
    · simp [apply_patches_run, hne, h2, h3]
    · simp only [main_run, apply_patches_run, hne, Bool.not_true, Bool.false_eq_true,
        if_false, Bool.if_false_left]
      by_cases hcf : countFailures dr (p :: rest) = 0 <;>
        simp [apply_patches_run, hne, h2, h3, hcf]

/-- Claim C3: the probe evaluates the Applied check (reverse dry-run) first:
whenever the reverse dry-run exits with status 0 the probe returns Applied,
independently of the forward dry-run's behaviour, and the Applied message is
never a conflict report. -/
theorem claim_C3 (p : PatchBehavior)
    (h1 : p.reverseRaises = false) (h2 : p.reverseOk = true) :
    is_patch_applied p = (true, "Already applied")
    ∧ (∀ (fr fo : Bool) (fs : String),
        is_patch_applied
            { p with forwardRaises := fr, forwardOk := fo, forwardStderr := fs }
          = (true, "Already applied"))
    ∧ strContains (is_patch_applied p).2 "Conflicts" = false := by
  have hm : is_patch_applied p = (true, "Already applied") := by
    simp [is_patch_applied, h1, h2]
  refine ⟨hm, ?_, ?_⟩
  · intro fr fo fs
    simp [is_patch_applied, h1, h2]
  · rw [hm]
    decide

/-- Claim C3 witness: a patch whose reverse dry-run succeeds is classified
Applied whatever the forward dry-run would report. -/
theorem claim_C3_witness :
    (appliedPatchD.reverseRaises = false ∧ appliedPatchD.reverseOk = true)
    ∧ (is_patch_applied appliedPatchD = (true, "Already applied")
        ∧ (∀ (fr fo : Bool) (fs : String),
            is_patch_applied
                { appliedPatchD with forwardRaises := fr, forwardOk := fo, forwardStderr := fs }
              = (true, "Already applied"))
        ∧ strContains (is_patch_applied appliedPatchD).2 "Conflicts" = false) :=
  ⟨⟨rfl, rfl⟩, claim_C3 appliedPatchD rfl rfl⟩

/-- Claim C4: when the reverse dry-run fails and the forward dry-run also
fails, the probe reports a conflict whose reason is the forward dry-run's
captured diagnostic text, and the reverse dry-run's output is never
consulted for it. -/
theorem claim_C4 (p : PatchBehavior)
    (h1 : p.reverseRaises = false) (h2 : p.reverseOk = false)
    (h3 : p.forwardRaises = false) (h4 : p.forwardOk = false) :
    is_patch_applied p = (false, "Conflicts detected: " ++ p.forwardStderr)
    ∧ (∀ s, is_patch_applied { p with reverseStderr := s } = is_patch_applied p) := by
  constructor
  · simp [is_patch_applied, h1, h2, h3, h4]
  · intro s
    rfl

/-- Claim C4 witness: a conflicting patch's reason comes from the forward
dry-run's stderr even though the reverse dry-run produced its own output. -/
theorem claim_C4_witness :
    (conflictPatchB.reverseRaises = false ∧ conflictPatchB.reverseOk = false
        ∧ conflictPatchB.forwardRaises = false ∧ conflictPatchB.forwardOk = false)
    ∧ (is_patch_applied conflictPatchB
          = (false, "Conflicts detected: " ++ conflictPatchB.forwardStderr)
        ∧ (∀ s, is_patch_applied { conflictPatchB with reverseStderr := s }
            = is_patch_applied conflictPatchB)) :=
  ⟨⟨rfl, rfl, rfl, rfl⟩, claim_C4 conflictPatchB rfl rfl rfl rfl⟩

/-- Claim C5: a dry-run invocation never performs the mutating application:
an applicable patch yields the would-be-applied outcome without running the
real apply, the backup snapshot step is skipped, and no outcome of a dry-run
batch ever ran the real apply. -/
theorem claim_C5 (p : PatchBehavior)
    (h1 : p.reverseRaises = false) (h2 : p.reverseOk = false)
    (h3 : p.forwardRaises = false) (h4 : p.forwardOk = true) :
    apply_patch p true = ⟨true, p.name ++ ": Would be applied (dry-run)", false⟩
    ∧ (∀ q, (apply_patch q true).ranApply = false)
    ∧ (∀ (te ae we go : Bool) (tree : TreeState) (de : Bool)
        (ps : List PatchBehavior) (f nb : Bool),
        (main_run te ae we go tree de ps true f nb).backup = none)
    ∧ (∀ (ps : List PatchBehavior) (f : Bool),
        ((apply_patches_run true ps true f).outcomes.all fun r => !r.ranApply) = true) := by
  have hc : strContains "Ready to apply" "Conflicts" = false := by decide
  have hm : is_patch_applied p = (false, "Ready to apply") := by
    simp [is_patch_applied, h1, h2, h3, h4]
  refine ⟨?_, apply_patch_dry_pure, ?_, ?_⟩
  · simp [apply_patch, hm, hc]
  · intro te ae we go tree de ps f nb
    cases te <;> cases ae <;> cases we <;> cases go <;> simp [main_run]
  · intro ps f
    cases ps with
    | nil => rfl
    | cons q rest =>
      have := runPatches_dry_pure f (q :: rest) ⟨0, 0, 0⟩
      simpa [apply_patches_run] using this

/-- Claim C5 witness: an applicable patch in dry-run mode reports
would-be-applied, no dry-run outcome mutates, and the backup is skipped. -/
theorem claim_C5_witness :
    (okPatchA.reverseRaises = false ∧ okPatchA.reverseOk = false
        ∧ okPatchA.forwardRaises = false ∧ okPatchA.forwardOk = true)
    ∧ (apply_patch okPatchA true
          = ⟨true, okPatchA.name ++ ": Would be applied (dry-run)", false⟩
        ∧ (∀ q, (apply_patch q true).ranApply = false)
        ∧ (∀ (te ae we go : Bool) (tree : TreeState) (de : Bool)
            (ps : List PatchBehavior) (f nb : Bool),
            (main_run te ae we go tree de ps true f nb).backup = none)
        ∧ (∀ (ps : List PatchBehavior) (f : Bool),
            ((apply_patches_run true ps true f).outcomes.all fun r => !r.ranApply) = true)) :=
  ⟨⟨rfl, rfl, rfl, rfl⟩, claim_C5 okPatchA rfl rfl rfl rfl⟩

/-- Claim C6: an existing patches directory with zero patch files yields
terminal success (result true, warning annotation, exit code 0, no patch
processed), whereas a missing patches directory yields batch failure before
any patch is processed and exit code 1. -/
theorem claim_C6 (dr f : Bool) (ps : List PatchBehavior) (tree : TreeState) (nb : Bool) :
    apply_patches_run true [] dr f = ⟨true, [], ⟨0, 0, 0⟩, true, false⟩
    ∧ (main_run true true true true tree true [] dr f nb).exitCode = 0
    ∧ apply_patches_run false ps dr f = ⟨false, [], ⟨0, 0, 0⟩, false, false⟩
    ∧ (main_run true true true true tree false ps dr f nb).exitCode = 1 :=
  ⟨rfl, rfl, rfl, rfl⟩

/-- Claim C7 counterexample: on a clean tree no snapshot is taken, yet
`create_backup` still returns `True`, so its return value does not indicate
whether a snapshot was actually taken. -/
theorem claim_C7_cex :
    (create_backup ⟨false, "", false⟩).result = true
    ∧ (create_backup ⟨false, "", false⟩).stashRan = false := by
  decide

/-- Claim C7 (amended): the snapshot guard always returns `True`; a snapshot
is actually created exactly when the tree is dirty and the stash succeeds,
and the guard's behaviour never influences the batch or the exit code. -/
theorem claim_C7 (t : TreeState) :
    (create_backup t).result = true
    ∧ ((create_backup t).stashRan = true
        ↔ (t.statusRaises = false ∧ strStrip t.porcelain ≠ "" ∧ t.stashRaises = false))
    ∧ (∀ (te ae we go : Bool) (t' : TreeState) (de : Bool)
        (ps : List PatchBehavior) (dr f nb : Bool),
        (main_run te ae we go t de ps dr f nb).exitCode
            = (main_run te ae we go t' de ps dr f nb).exitCode
          ∧ (main_run te ae we go t de ps dr f nb).batch
            = (main_run te ae we go t' de ps dr f nb).batch) := by
  refine ⟨?_, ?_, ?_⟩
  · rcases t with ⟨sr, pc, st⟩
    by_cases hpc : strStrip pc = "" <;> cases sr <;> cases st <;>
      simp [create_backup, hpc]
  · rcases t with ⟨sr, pc, st⟩
    by_cases hpc : strStrip pc = "" <;> cases sr <;> cases st <;>
      simp [create_backup, hpc]
  · intro te ae we go t' de ps dr f nb
    cases te <;> cases ae <;> cases we <;> cases go <;> exact ⟨rfl, rfl⟩

/-- Claim C8: a real application whose underlying forward apply exits
non-zero yields a failed outcome whose diagnostic contains the tool's error
text, and the failure is recorded as data in the batch report. -/
theorem claim_C8 (p : PatchBehavior)
    (h1 : (is_patch_applied p).1 = false)
    (h2 : strContains (is_patch_applied p).2 "Conflicts" = false)
    (h3 : p.applyOk = false) :
    apply_patch p false
        = ⟨false, p.name ++ ": Failed to apply\n" ++ p.applyStderr, true⟩
    ∧ strContains (apply_patch p false).message p.applyStderr = true
    ∧ apply_patches_run true [p] false false
        = ⟨false, [⟨false, p.name ++ ": Failed to apply\n" ++ p.applyStderr, true⟩],
            ⟨0, 0, 1⟩, false, true⟩ := by
  have hap : apply_patch p false
      = ⟨false, p.name ++ ": Failed to apply\n" ++ p.applyStderr, true⟩ := by
    simp [apply_patch, h1, h2, h3]
  refine ⟨hap, ?_, ?_⟩
  · rw [hap]
    exact strContains_append_right _ _ _ (strContains_self _)
  · simp [apply_patches_run, runPatches, hap]

/-- Claim C8 witness: a patch that probes as applicable but whose real apply
exits non-zero is reported failed, with the stderr text in its message. -/
theorem claim_C8_witness :
    ((is_patch_applied failPatchE).1 = false
        ∧ strContains (is_patch_applied failPatchE).2 "Conflicts" = false
        ∧ failPatchE.applyOk = false)
    ∧ (apply_patch failPatchE false
          = ⟨false, failPatchE.name ++ ": Failed to apply\n" ++ failPatchE.applyStderr, true⟩
        ∧ strContains (apply_patch failPatchE false).message failPatchE.applyStderr = true
        ∧ apply_patches_run true [failPatchE] false false
            = ⟨false,
                [⟨false, failPatchE.name ++ ": Failed to apply\n" ++ failPatchE.applyStderr,
                  true⟩],
                ⟨0, 0, 1⟩, false, true⟩) :=
  ⟨⟨by decide, by decide, rfl⟩, claim_C8 failPatchE (by decide) (by decide) rfl⟩

/-- Claim C9 counterexample: a probe exception whose text contains the word
`Conflicts` makes the applicator classify the patch as failed without
attempting the real application, in dry-run and real mode alike. -/
theorem claim_C9_cex :
    (is_patch_applied excConflictPatch).2 = "Error checking patch: Conflicts"
    ∧ (apply_patch excConflictPatch false).ranApply = false
    ∧ (apply_patch excConflictPatch false).success = false
    ∧ (apply_patch excConflictPatch true).success = false := by
  decide

/-- Claim C9 (amended): if the probe raises an internal exception and the
resulting `Error checking patch` message does not contain the text
`Conflicts`, the applicator proceeds: in a non-dry-run it attempts the real
forward application, and in a dry-run it reports would-be-applied. -/
theorem claim_C9 (p : PatchBehavior)
    (hr : p.reverseRaises = true
        ∨ (p.reverseRaises = false ∧ p.reverseOk = false ∧ p.forwardRaises = true))
    (hnc : strContains ("Error checking patch: " ++ p.excMsg) "Conflicts" = false) :
    (is_patch_applied p).1 = false
    ∧ (is_patch_applied p).2 = "Error checking patch: " ++ p.excMsg
    ∧ (apply_patch p false).ranApply = true
    ∧ apply_patch p true = ⟨true, p.name ++ ": Would be applied (dry-run)", false⟩ := by
  have hm : is_patch_applied p = (false, "Error checking patch: " ++ p.excMsg) := by
    rcases hr with h | ⟨ha, hb, hc⟩
    · simp [is_patch_applied, h]
    · simp [is_patch_applied, ha, hb, hc]
  refine ⟨by rw [hm], by rw [hm], ?_, ?_⟩
  · by_cases hap : p.applyOk <;> simp [apply_patch, hm, hnc, hap]
  · simp [apply_patch, hm, hnc]

/-- Claim C9 witness: a probe exception with an ordinary text lets the
applicator go on to the real application (or report would-be-applied in
dry-run mode). -/
theorem claim_C9_witness :
    ((excBoomPatch.reverseRaises = true
        ∨ (excBoomPatch.reverseRaises = false ∧ excBoomPatch.reverseOk = false
            ∧ excBoomPatch.forwardRaises = true))
        ∧ strContains ("Error checking patch: " ++ excBoomPatch.excMsg) "Conflicts" = false)
    ∧ ((is_patch_applied excBoomPatch).1 = false
        ∧ (is_patch_applied excBoomPatch).2 = "Error checking patch: " ++ excBoomPatch.excMsg
        ∧ (apply_patch excBoomPatch false).ranApply = true
        ∧ apply_patch excBoomPatch true
            = ⟨true, excBoomPatch.name ++ ": Would be applied (dry-run)", false⟩) :=
  ⟨⟨Or.inl rfl, by decide⟩, claim_C9 excBoomPatch (Or.inl rfl) (by decide)⟩

/-- Claim C10: outcome classification is a substring search for `Already
applied` in the human-readable message, which embeds the patch filename: a
patch named `Already applied-custom.patch` that is actually applied
successfully (the real apply runs) is counted as skipped, not applied. -/
theorem claim_C10 :
    apply_patch trickyNamePatch false
        = ⟨true, "Already applied-custom.patch: Applied successfully", true⟩
    ∧ strContains (apply_patch trickyNamePatch false).message "Already applied" = true
    ∧ (runPatches false false [trickyNamePatch] ⟨0, 0, 0⟩).2.1 = ⟨0, 1, 0⟩
    ∧ (apply_patches_run true [trickyNamePatch] false false).counts = ⟨0, 1, 0⟩
    ∧ (apply_patches_run true [trickyNamePatch] false false).result = true := by
  decide

end DifyPatcher
